import Mathlib

/-!
Verification development for the NextVibeCodingBot repository.

This file shallowly embeds the core pipeline of the bot — the rate limiter
(`nextvibe_bot/utils/rate_limiter.py`), the task parser
(`nextvibe_bot/services/task_parser.py`), the AI client and code analyzer
(`nextvibe_bot/utils/ai_client.py`, `nextvibe_bot/services/code_analyzer.py`),
the configuration model (`nextvibe_bot/config.py`) and the code executor
(`nextvibe_bot/services/code_executor.py`) — and proves or refutes the
behavioural claims of the specification against those embeddings.

Modelling conventions:
* Python `float` timestamps are modelled as `ℚ` (exact arithmetic on the
  values the semantics compares and adds).
* Fallible Python code is modelled in `Except PyError`; a Python function
  that can raise is a Lean function returning `Except`.
* Strings are Lean `String`s; `str.strip()` is `pyStrip`, substring tests
  (`a in b`) are `strContains`.
-/

namespace NextVibe

/-- Python exceptions that the modelled code can raise. -/
inductive PyError where
  | nameError (name : String)
  | attributeError (name : String)
deriving DecidableEq, Repr

/-- Python `str.strip()`: drop leading and trailing whitespace.
(Python strips a slightly larger whitespace class than `Char.isWhitespace`,
e.g. `\x0b`/`\x0c`; the difference is immaterial for the inputs considered.) -/
def pyStrip (s : String) : String :=
  ⟨((s.data.dropWhile Char.isWhitespace).reverse.dropWhile Char.isWhitespace).reverse⟩

/-- Auxiliary for `strContains`: does `needle` occur as a prefix of `l`? -/
def prefixAt : List Char → List Char → Bool
  | [], _ => true
  | _ :: _, [] => false
  | a :: as, b :: bs => a == b && prefixAt as bs

/-- Auxiliary for `strContains`: does `needle` occur anywhere in `l`? -/
def containsAux (needle : List Char) : List Char → Bool
  | [] => needle.isEmpty
  | l@(_ :: rest) => prefixAt needle l || containsAux needle rest

/-- Python `needle in haystack` on strings: substring containment. -/
def strContains (haystack needle : String) : Bool :=
  containsAux needle.data haystack.data

/-- Python truthiness of an `Optional[str]`: `None` and `""` are falsy. -/
def truthy : Option String → Bool
  | none => false
  | some s => !s.isEmpty

/-! ## Rate limiter (`nextvibe_bot/utils/rate_limiter.py`)

`RateLimiter.message_counts` is a `defaultdict(list)` mapping a Telegram user
id to the list of admitted-message timestamps.  We model the store as a total
function from user ids to timestamp lists (a missing key and an empty list are
indistinguishable, exactly as for `defaultdict(list)`), and pass the current
time `time.time()` explicitly. -/

namespace RateLimiter

/-- Telegram user ids (Python `int`). -/
abbrev UserId := Int

/-- The `message_counts` store: per-user list of timestamps. -/
abbrev RateState := UserId → List ℚ

/-- The store of a freshly constructed `RateLimiter`. -/
def emptyState : RateState := fun _ => []

/-- The list comprehension of `is_allowed` / `get_remaining_messages`
(lines 40–43 and 61–64): keep `timestamp` iff `timestamp > current_time - 60`. -/
def prune (now : ℚ) (l : List ℚ) : List ℚ :=
  l.filter (fun timestamp => now - 60 < timestamp)

/-- Model of `RateLimiter.is_allowed` (lines 25–52): prune the user's window, reject
without recording if the pruned window has reached `max_messages`, otherwise
append the current timestamp and admit. -/
def isAllowed (maxMessages : ℕ) (st : RateState) (u : UserId) (now : ℚ) :
    Bool × RateState :=
  let pruned := prune now (st u)
  if maxMessages ≤ pruned.length then
    (false, Function.update st u pruned)
  else
    (true, Function.update st u (pruned ++ [now]))

/-- Model of `RateLimiter.get_remaining_messages` (lines 54–66): prune, then return
`max(0, max_messages - len(window))` (natural subtraction). -/
def getRemainingMessages (maxMessages : ℕ) (st : RateState) (u : UserId)
    (now : ℚ) : ℕ × RateState :=
  let pruned := prune now (st u)
  (maxMessages - pruned.length, Function.update st u pruned)

/-- Model of `RateLimiter.get_reset_time` (lines 68–90): note that although the method
computes `minute_ago = current_time - 60`, it never prunes the stored list; the
capacity test and the `min` are taken over the raw stored timestamps.  The
`now` argument is therefore unused, mirroring the source. -/
def getResetTime (maxMessages : ℕ) (st : RateState) (u : UserId) (_now : ℚ) :
    Option ℚ × RateState :=
  if (st u).length < maxMessages then
    (none, st)
  else
    match st u with
    | [] => (none, st)
    | t :: ts => (some (ts.foldl min t + 60), st)

/-- One public call to the rate limiter, with the wall-clock time of the call. -/
inductive RLOp where
  | allow (u : UserId) (now : ℚ)
  | remaining (u : UserId) (now : ℚ)
  | reset (u : UserId) (now : ℚ)

/-- The state transition of a single rate-limiter call. -/
def applyOp (maxMessages : ℕ) (st : RateState) : RLOp → RateState
  | .allow u now => (isAllowed maxMessages st u now).2
  | .remaining u now => (getRemainingMessages maxMessages st u now).2
  | .reset u now => (getResetTime maxMessages st u now).2

/-- Run a sequence of rate-limiter calls from a given store. -/
def runOps (maxMessages : ℕ) (st : RateState) : List RLOp → RateState
  | [] => st
  | op :: ops => runOps maxMessages (applyOp maxMessages st op) ops

/-- Run `is_allowed u` successively at the given call times, collecting the
returned booleans and the final store. -/
def runIsAllowed (maxMessages : ℕ) (st : RateState) (u : UserId) :
    List ℚ → List Bool × RateState
  | [] => ([], st)
  | t :: ts =>
    let r := isAllowed maxMessages st u t
    let rest := runIsAllowed maxMessages r.2 u ts
    (r.1 :: rest.1, rest.2)

end RateLimiter

/-! ## Task parser (`nextvibe_bot/services/task_parser.py`)

The two regexes of `TaskParser._extract_code_blocks` —
`r'```(\w+)?\n(.*?)\n```'` (with `re.DOTALL`) and `` r'`([^`]+)`' `` — are
embedded as dedicated scanners implementing Python's leftmost,
non-overlapping `re.findall` semantics for exactly these patterns.  The
scanners carry (a) the character index at which each match starts, used to
settle the ordering claim, and (b) a fuel argument that makes the recursion
structural; every recursive call consumes at least one character, so fuel
equal to the input length (as supplied by the wrappers) never runs out. -/

namespace TaskParser

/-- Python `\w` (ASCII range; the inputs considered contain no non-ASCII
word characters). -/
def isWordChar (c : Char) : Bool := c.isAlphanum || c == '_'

/-- The lazy `(.*?)\n```` ``` `` part of the fenced-block pattern under
`re.DOTALL`: the shortest body after which the literal `"\n```"` follows,
i.e. the body up to the earliest occurrence of `"\n```"`. -/
def findBody : List Char → Option (List Char)
  | [] => none
  | '\n' :: '`' :: '`' :: '`' :: _ => some []
  | c :: rest => (findBody rest).map (c :: ·)

/-- Model of `re.findall(r'```(\w+)?\n(.*?)\n```', message, re.DOTALL)`, with the
start index of each match.  At a position opening with three backticks the
optional `(\w+)?` group greedily takes the run of word characters, which
must be followed by a newline (backtracking inside a `\w` run cannot expose
a newline); the lazy body ends at the earliest `"\n```"`; scanning resumes
after the match, or one character further on failure. -/
def fencedAux : ℕ → ℕ → List Char → List (ℕ × String × String)
  | _, _, [] => []
  | 0, _, _ => []
  | fuel + 1, pos, l =>
    match l with
    | '`' :: '`' :: '`' :: rest =>
      let ws := rest.takeWhile isWordChar
      match rest.dropWhile isWordChar with
      | '\n' :: body0 =>
        match findBody body0 with
        | some body =>
            (pos, ⟨ws⟩, ⟨body⟩) ::
              fencedAux fuel (pos + ws.length + body.length + 8)
                (body0.drop (body.length + 4))
        | none => fencedAux fuel (pos + 1) ('`' :: '`' :: rest)
      | _ => fencedAux fuel (pos + 1) ('`' :: '`' :: rest)
    | _ :: rest => fencedAux fuel (pos + 1) rest
    | [] => []

/-- Model of `` re.findall(r'`([^`]+)`', message) `` with the start index of each
match: a backtick, a nonempty run of non-backticks, and a closing backtick;
scanning resumes after the closing backtick, or one character further on
failure. -/
def inlineAux : ℕ → ℕ → List Char → List (ℕ × String)
  | _, _, [] => []
  | 0, _, _ => []
  | fuel + 1, pos, c :: rest =>
    if c = '`' then
      let sp := rest.takeWhile (fun x => x ≠ '`')
      match rest.dropWhile (fun x => x ≠ '`') with
      | '`' :: rem2 =>
        if sp.isEmpty then inlineAux fuel (pos + 1) rest
        else (pos, ⟨sp⟩) :: inlineAux fuel (pos + sp.length + 2) rem2
      | _ => inlineAux fuel (pos + 1) rest
    else inlineAux fuel (pos + 1) rest

/-- All fenced-pattern matches of a message: `(start index, language tag,
raw body)`. -/
def fencedMatches (s : String) : List (ℕ × String × String) :=
  fencedAux s.data.length 0 s.data

/-- All inline-pattern matches of a message: `(start index, span text)`. -/
def inlineMatches (s : String) : List (ℕ × String) :=
  inlineAux s.data.length 0 s.data

/-- The `"type"` key of an extracted code-block dict. -/
inductive BlockKind where
  | fenced
  | inline
deriving DecidableEq, Repr

/-- One element of the `code_blocks` list built by `_extract_code_blocks`:
fenced blocks get an integer id, inline blocks the string id `"inline_<i>"`. -/
structure CodeBlock where
  id : ℕ ⊕ String
  language : Option String
  code : String
  type : BlockKind
deriving DecidableEq, Repr

/-- Model of `TaskParser._extract_code_blocks` (lines 130–158), instrumented with the
start index of each match in the message: all fenced-pattern matches (with
`lang or None` and `code.strip()`), then all inline-pattern matches. -/
def extractCodeBlocksPos (message : String) : List (ℕ × CodeBlock) :=
  let fenced := (fencedMatches message).enum.map (fun x =>
    (x.2.1, { id := Sum.inl x.1,
              language := if x.2.2.1 = "" then none else some x.2.2.1,
              code := pyStrip x.2.2.2,
              type := BlockKind.fenced }))
  let inline := (inlineMatches message).enum.map (fun x =>
    (x.2.1, { id := Sum.inr ("inline_" ++ toString x.1),
              language := none,
              code := x.2.2,
              type := BlockKind.inline }))
  fenced ++ inline

/-- Model of `TaskParser._extract_code_blocks`: the returned `code_blocks` list. -/
def extractCodeBlocks (message : String) : List CodeBlock :=
  (extractCodeBlocksPos message).map Prod.snd

/-- Is a list of indices in non-decreasing order?  (Computable form of the
ordering property claimed for `code_fragments`.) -/
def nondecreasing : List ℕ → Bool
  | [] => true
  | [_] => true
  | a :: b :: rest => a ≤ b && nondecreasing (b :: rest)

/-- The ordering property C5 claims: the extracted fragments are listed by
position of first appearance of their delimiters in the message. -/
def fragmentsInSourceOrder (m : String) : Prop :=
  nondecreasing ((extractCodeBlocksPos m).map Prod.fst) = true

/-- Model of `re.sub(r'\s+', ' ', ...)`: every whitespace character becomes a space
and runs of spaces are then collapsed (structural helper). -/
def dedupSpaces : List Char → List Char
  | [] => []
  | [c] => [c]
  | a :: b :: rest =>
    if a = ' ' && b = ' ' then dedupSpaces (b :: rest)
    else a :: dedupSpaces (b :: rest)

/-- Model of `re.sub(r'\s+', ' ', message.strip())` applied to the character list. -/
def collapseWhitespace (l : List Char) : List Char :=
  dedupSpaces (l.map fun c => if c.isWhitespace then ' ' else c)

/-- The lazy `.*?` of `` r'`{3}.*?`{3}' `` (no `re.DOTALL`): body length up
to the earliest closing triple backtick reachable without crossing a
newline. -/
def findCodeBlockClose : List Char → Option ℕ
  | '`' :: '`' :: '`' :: _ => some 0
  | '\n' :: _ => none
  | [] => none
  | _ :: rest => (findCodeBlockClose rest).map (· + 1)

/-- Model of `` re.sub(r'`{3}.*?`{3}', 'CODE_BLOCK', cleaned) `` (fuel-structural). -/
def subTripleBacktick : ℕ → List Char → List Char
  | _, [] => []
  | 0, l => l
  | fuel + 1, l =>
    match l with
    | '`' :: '`' :: '`' :: rest =>
      match findCodeBlockClose rest with
      | some n => "CODE_BLOCK".data ++ subTripleBacktick fuel (rest.drop (n + 3))
      | none => '`' :: subTripleBacktick fuel ('`' :: '`' :: rest)
    | c :: rest => c :: subTripleBacktick fuel rest
    | [] => []

/-- Model of `` re.sub(r'`[^`]+`', 'CODE', cleaned) `` (fuel-structural). -/
def subInlineCode : ℕ → List Char → List Char
  | _, [] => []
  | 0, l => l
  | fuel + 1, c :: rest =>
    if c = '`' then
      let sp := rest.takeWhile (fun x => x ≠ '`')
      match rest.dropWhile (fun x => x ≠ '`') with
      | '`' :: rem2 =>
        if sp.isEmpty then c :: subInlineCode fuel rest
        else "CODE".data ++ subInlineCode fuel rem2
      | _ => c :: subInlineCode fuel rest
    else c :: subInlineCode fuel rest

/-- Model of `TaskParser._clean_message` (lines 66–75): collapse whitespace on the
stripped text, then replace fenced blocks by `CODE_BLOCK` and inline spans
by `CODE`. -/
def cleanMessage (message : String) : String :=
  let collapsed := collapseWhitespace (pyStrip message).data
  let noFenced := subTripleBacktick collapsed.length collapsed
  ⟨subInlineCode noFenced.length noFenced⟩

/-- The `"details"` sub-dict built by `_extract_task_details`. -/
structure TaskDetails where
  urgency : String
  complexity : String
  specific_requirements : List String
  error_messages : List String
deriving DecidableEq, Repr

/-- The task-info dict returned by `TaskParser.parse_message`. -/
structure TaskInfo where
  id : String
  original_message : String
  cleaned_message : String
  task_type : String
  language : Option String
  code_blocks : List CodeBlock
  details : TaskDetails
  timestamp : String
  confidence : ℚ
deriving Repr

/-- The names bound at module level in `task_parser.py`: its imports
(lines 5–10) and own definitions.  `hashlib` is *not* among them — the
module never imports it although `_generate_task_id` (line 242) calls
`hashlib.md5`. -/
def taskParserModuleGlobals : List String :=
  ["re", "logging", "Dict", "Any", "Optional", "List", "datetime",
   "settings", "TASK_PATTERNS", "SUPPORTED_LANGUAGES", "logger", "TaskParser"]

/-- Model of `TaskParser._generate_task_id` (lines 240–242):
`hashlib.md5(message.encode()).hexdigest()[:8]`.  Resolving the free name
`hashlib` in the module globals fails, so the call raises `NameError`; the
md5 hex digest itself (never reached) is abstracted as a parameter. -/
def generateTaskId (md5hex : String → String) (message : String) :
    Except PyError String :=
  if "hashlib" ∈ taskParserModuleGlobals then .ok ((md5hex message).take 8)
  else .error (.nameError "hashlib")

/-- Model of `TaskParser.parse_message` (lines 23–64).  The remaining helpers —
`_detect_task_type`, `_detect_language`, `_extract_task_details` and
`_calculate_confidence` — are total functions of the (cleaned) message
(regex scans and keyword lookups that cannot raise); they are passed as
parameters, so the theorems below hold for *every* behaviour of those
helpers.  `datetime.utcnow().isoformat()` is the parameter `nowIso`.
The helper calls of lines 36–48 all complete, and the `"id"` entry of the
result dict (line 52) is the first expression of the dict literal to be
evaluated, so `_generate_task_id`'s outcome decides whether the call
returns. -/
def parseMessage
    (detectTaskType : String → String)
    (detectLanguage : String → String → Option String)
    (extractTaskDetails : String → TaskDetails)
    (calculateConfidence : String → TaskDetails → ℚ)
    (md5hex : String → String)
    (nowIso : String)
    (message : String) : Except PyError TaskInfo :=
  let cleaned_message := cleanMessage message
  let task_type := detectTaskType cleaned_message
  let language := detectLanguage cleaned_message message
  let code_blocks := extractCodeBlocks message
  let task_details := extractTaskDetails cleaned_message
  match generateTaskId md5hex message with
  | .error e => .error e
  | .ok id =>
    .ok { id := id,
          original_message := message,
          cleaned_message := cleaned_message,
          task_type := task_type,
          language := language,
          code_blocks := code_blocks,
          details := task_details,
          timestamp := nowIso,
          confidence := calculateConfidence task_type task_details }

end TaskParser

/-! ## Configuration (`nextvibe_bot/config.py`) -/

namespace Config

/-- The complete list of fields declared by the pydantic `Settings` class
(config.py lines 11–51), in declaration order.  Note that no `minimax_*`
field is declared. -/
def settingsDeclaredFields : List String :=
  ["telegram_bot_token", "openai_api_key", "anthropic_api_key", "e2b_api_key",
   "database_url", "pg_host", "pg_user", "pg_database", "pg_password",
   "redis_url", "docker_enabled", "code_execution_timeout", "max_code_size",
   "log_level", "log_file", "max_messages_per_minute", "allowed_users",
   "bot_name", "bot_description"]

/-- The values of a constructed `Settings` object, restricted to the fields
the modelled components consume (the full declared-name list is
`settingsDeclaredFields`). -/
structure Settings where
  telegram_bot_token : String
  openai_api_key : Option String := none
  anthropic_api_key : Option String := none
  e2b_api_key : Option String := none
  docker_enabled : Bool := true
  code_execution_timeout : ℕ := 30
  max_messages_per_minute : ℕ := 10

/-- Dynamic attribute lookup `getattr(settings, name)` as performed by
`AIClient.__init__`: a name declared by `Settings` yields the stored value,
any other name makes pydantic raise `AttributeError`.  The inner value
selector covers the `Optional[str]` API-key fields — the only declared
attributes the modelled code reads through this dynamic path. -/
def settingsStrAttr (s : Settings) (name : String) :
    Except PyError (Option String) :=
  if name ∈ settingsDeclaredFields then
    .ok (if name = "openai_api_key" then s.openai_api_key
         else if name = "anthropic_api_key" then s.anthropic_api_key
         else s.e2b_api_key)
  else .error (.attributeError name)

end Config

/-! ## AI client (`nextvibe_bot/utils/ai_client.py`) -/

namespace AIClient

/-- The attribute state of a constructed `AIClient` (fields assigned by
`__init__`, lines 20–27; the leading underscores of the client handles are
dropped in the Lean field names).  All seven attributes are assigned
unconditionally, so they exist on every constructed object. -/
structure AIClientObj where
  openai_api_key : Option String
  anthropic_api_key : Option String
  minimax_api_key : Option String
  minimax_base_url : Option String
  openai_client : Option Unit := none
  anthropic_client : Option Unit := none
  minimax_client : Option Unit := none

/-- Model of `AIClient.__init__` (lines 20–27): reads `settings.openai_api_key`,
`settings.anthropic_api_key`, `settings.minimax_api_key` and
`settings.minimax_base_url` in that order. -/
def aiClientInit (s : Config.Settings) : Except PyError AIClientObj := do
  let openaiKey ← Config.settingsStrAttr s "openai_api_key"
  let anthropicKey ← Config.settingsStrAttr s "anthropic_api_key"
  let minimaxKey ← Config.settingsStrAttr s "minimax_api_key"
  let minimaxUrl ← Config.settingsStrAttr s "minimax_base_url"
  return { openai_api_key := openaiKey, anthropic_api_key := anthropicKey,
           minimax_api_key := minimaxKey, minimax_base_url := minimaxUrl }

/-- The three external AI backends tried by `generate_response`. -/
inductive AIBackend where
  | anthropic
  | minimax
  | openai
deriving DecidableEq, Repr

/-- The response dict produced by one backend (the `usage` key is not
modelled). -/
structure AIResponse where
  content : String
  thinking : Option String := none
  model : String
deriving DecidableEq, Repr

/-- Model of `response_templates["bug"]` of `_generate_fallback_response`. -/
def bugTemplate : String :=
  "\n## Bug Analysis\n\nBased on your description, here's my analysis of the bug:\n\n**Problem:** The issue appears to be related to [specific area mentioned in the prompt]\n\n**Solution approach:**\n1. Check error messages and stack traces for clues\n2. Identify the root cause by examining the failing code\n3. Implement a targeted fix\n4. Test the solution thoroughly\n\n**Next steps:**\n- Please share the exact error message and relevant code\n- I can provide more specific guidance once I see the actual error\n- Consider adding error handling and logging to prevent similar issues\n\nLet me know if you'd like me to help with any specific part of the debugging process.\n"

/-- Model of `response_templates["feature"]` of `_generate_fallback_response`. -/
def featureTemplate : String :=
  "\n## Feature Implementation\n\nI'll help you implement this feature step by step:\n\n**Planning:**\n1. **Requirements analysis** - Understand exactly what the feature should do\n2. **Design phase** - Plan the implementation approach\n3. **Development** - Write the code for the new feature\n4. **Testing** - Ensure the feature works correctly\n5. **Integration** - Make sure it fits well with existing code\n\n**Getting started:**\n- Could you share more details about the specific requirements?\n- Do you have any existing code or examples to work from?\n- What programming language are you using?\n\nI'm ready to help you build this feature! Please provide more details so I can give you a specific implementation plan.\n"

/-- Model of `response_templates["debug"]` of `_generate_fallback_response`. -/
def debugTemplate : String :=
  "\n## Debugging Assistance\n\nLet's debug this issue systematically:\n\n**Debugging approach:**\n1. **Reproduce the problem** - Make sure you can consistently trigger the issue\n2. **Gather information** - Collect error messages, logs, and relevant code\n3. **Isolate the issue** - Identify which part of the code is causing the problem\n4. **Implement fix** - Address the root cause\n5. **Verify solution** - Test that the fix works and doesn't break other functionality\n\n**Information I need:**\n- What exactly is happening vs. what you expect to happen?\n- Any error messages or stack traces?\n- Relevant code snippets\n- Steps to reproduce the issue\n\nShare these details and I'll help you find and fix the problem!\n"

/-- The default template of `_generate_fallback_response`. -/
def genericTemplate : String :=
  "\n## Coding Assistance\n\nI'm here to help with your coding problem! \n\n**What I can help with:**\n- 🐛 Bug fixes and error resolution\n- ⚡ Feature development and implementation\n- 🔍 Code analysis and optimization\n- 🛠️ Debugging and troubleshooting\n- 📚 General programming questions\n\n**To get started:**\nPlease describe your specific coding challenge, including:\n- What you're trying to accomplish\n- Any error messages you're seeing\n- Relevant code snippets\n- What programming language you're using\n\nI'll analyze your request and provide a detailed solution approach!\n"

/-- Model of `AIClient._generate_fallback_response` (lines 176–278): pick a template
by keyword match against the lower-cased prompt; the response's `model` key
is `"fallback-template"`.  (Python `str.lower()` is modelled by
`String.toLower`; the keywords are ASCII.) -/
def generateFallbackResponse (prompt : String) : AIResponse :=
  let promptLower := prompt.toLower
  let response :=
    if ["bug", "error", "exception", "broken"].any
        (fun keyword => strContains promptLower keyword) then bugTemplate
    else if ["feature", "add", "implement", "create"].any
        (fun keyword => strContains promptLower keyword) then featureTemplate
    else if ["debug", "troubleshoot", "find issue"].any
        (fun keyword => strContains promptLower keyword) then debugTemplate
    else genericTemplate
  { content := response, model := "fallback-template" }

/-- Model of `AIClient.generate_response` (lines 29–62): try Anthropic, MiniMax and
OpenAI in order — each only if its key is truthy, each with its exception
caught and ignored — and finally fall back to the template response.  The
behaviour of each external backend call is a parameter: `.ok` models a
returned response dict, `.error` models the call raising.  The function is
total: no exception escapes it. -/
def generateResponse (c : AIClientObj)
    (backends : AIBackend → Except String AIResponse) (prompt : String) :
    AIResponse :=
  match (if truthy c.anthropic_api_key then some (backends .anthropic) else none) with
  | some (.ok r) => r
  | _ =>
    match (if truthy c.minimax_api_key then some (backends .minimax) else none) with
    | some (.ok r) => r
    | _ =>
      match (if truthy c.openai_api_key then some (backends .openai) else none) with
      | some (.ok r) => r
      | _ => generateFallbackResponse prompt

end AIClient

/-! ## Code analyzer (`nextvibe_bot/services/code_analyzer.py`) -/

namespace CodeAnalyzer

open AIClient TaskParser

/-- The solution dict built by `_generate_solution` / `_get_fallback_solution`. -/
structure Solution where
  approach : String
  ai_model : String
  timestamp : String
deriving DecidableEq, Repr

/-- The `CodeAnalyzer` object: holds the `AIClient` constructed in
`__init__` (line 22). -/
structure CodeAnalyzerObj where
  ai_client : AIClientObj

/-- Model of `CodeAnalyzer.__init__` (lines 21–22): constructs an `AIClient`. -/
def codeAnalyzerInit (s : Config.Settings) : Except PyError CodeAnalyzerObj :=
  (aiClientInit s).map (fun c => { ai_client := c })

/-- Model of `hasattr(self.ai_client, '_minimax_client')` (line 82):
`AIClient.__init__` unconditionally assigns `self._minimax_client = None`
(line 27), so the attribute exists on every constructed client and
`hasattr` is always `True`. -/
def hasattrMinimaxClient (_c : AIClientObj) : Bool := true

/-- Python rendering of the `language` values inside the prompt f-string:
the dicts built by `parse_message` always contain the `language` key, so
`dict.get(key, default)` returns the stored value — which f-string
interpolation renders as `"None"` when it is `None`. -/
def pyStrOfOptLang : Option String → String
  | some l => l
  | none => "None"

/-- Model of `CodeAnalyzer._build_solution_prompt` (lines 91–131). -/
def buildSolutionPrompt (t : TaskInfo) : String :=
  let base := "\nYou are a senior software engineer and coding expert. Analyze the following task and provide a comprehensive solution.\n\nTask Type: "
    ++ t.task_type ++ "\nProgramming Language: " ++ pyStrOfOptLang t.language
    ++ "\nUrgency: " ++ t.details.urgency ++ "\nComplexity: "
    ++ t.details.complexity ++ "\n\nOriginal Message:\n" ++ t.original_message
    ++ "\n\n"
  let base := if t.code_blocks ≠ [] then
      base ++ "\nCode Blocks Provided:\n"
        ++ String.join (t.code_blocks.map (fun b =>
            if b.type = BlockKind.fenced then
              "``` " ++ pyStrOfOptLang b.language ++ "\n" ++ b.code ++ "\n```\n"
            else "Inline code: `" ++ b.code ++ "`\n"))
    else base
  let base := if t.details.error_messages ≠ [] then
      base ++ "\nError Messages:\n"
        ++ String.join (t.details.error_messages.map (fun e => "- " ++ e ++ "\n"))
    else base
  base ++ "\nPlease provide:\n1. A clear explanation of the problem\n2. Step-by-step solution approach\n3. Any code improvements or fixes needed\n4. Best practices to follow\n5. Potential issues to watch for\n\nFormat your response in a clear, structured way using markdown.\n"

/-- Model of `CodeAnalyzer._get_fallback_solution` (lines 238–256): the static
solution used when `generate_response` itself raises; its `ai_model` is
`"fallback"`. -/
def getFallbackSolution (nowIso : String) (t : TaskInfo) : Solution :=
  let approach :=
    if t.task_type = "bug" then
      "To fix this bug: 1) Check error messages and stack traces, 2) Identify the root cause, 3) Implement a targeted fix, 4) Test the solution."
    else if t.task_type = "feature" then
      "To implement this feature: 1) Understand the requirements, 2) Design the implementation, 3) Write the code, 4) Test thoroughly."
    else if t.task_type = "debug" then
      "To debug this issue: 1) Reproduce the problem, 2) Add logging/prints to trace execution, 3) Identify the problematic code, 4) Fix the underlying issue."
    else
      "I'll help you solve this coding problem step by step. Please provide more specific details about what you need."
  { approach := approach, ai_model := "fallback", timestamp := nowIso }

/-- Model of `CodeAnalyzer._generate_solution` (lines 71–89).  The `try` branch is
taken because `generateResponse` is total (every backend exception is caught
inside it), so the `except` branch calling `_get_fallback_solution` is
unreachable; the solution's `ai_model` is
`"minimax" if hasattr(self.ai_client, '_minimax_client') else "fallback"`. -/
def generateSolution (c : AIClientObj)
    (backends : AIBackend → Except String AIResponse) (nowIso : String)
    (t : TaskInfo) : Solution :=
  let prompt := buildSolutionPrompt t
  let response := generateResponse c backends prompt
  { approach := response.content,
    ai_model := if hasattrMinimaxClient c then "minimax" else "fallback",
    timestamp := nowIso }

/-- The `code_analysis` dict built by `_analyze_code`. -/
structure CodeAnalysisResult where
  blocks_analyzed : ℕ
  issues_found : List String
  suggestions : List String
  quality_score : ℤ
deriving DecidableEq, Repr

/-- Model of `CodeAnalyzer._find_code_issues` (lines 156–178). -/
def findCodeIssues (code : String) (language : Option String) : List String :=
  match language with
  | none => []
  | some lang =>
    if lang = "python" then
      (if strContains code "print(" && !(strContains code "import logging") then
        ["Consider using logging instead of print statements"] else [])
      ++ (if strContains code "except:" then
        ["Consider specifying exception types in except clauses"] else [])
    else if lang = "javascript" || lang = "typescript" then
      (if strContains code "var " then
        ["Consider using let/const instead of var"] else [])
      ++ (if strContains code "==" && !(strContains code "!") then
        ["Consider using strict equality (===) instead of loose equality (==)"] else [])
    else []

/-- Model of `CodeAnalyzer._analyze_code` (lines 133–154): count the fenced blocks
with nonempty code, collect their issues in order, and compute
`max(0, 100 - 10 * len(issues))`. -/
def analyzeCode (t : TaskInfo) : CodeAnalysisResult :=
  let analyzed := t.code_blocks.filter
    (fun b => b.type = BlockKind.fenced && b.code ≠ "")
  let issues := analyzed.flatMap (fun b => findCodeIssues b.code b.language)
  { blocks_analyzed := analyzed.length,
    issues_found := issues,
    suggestions := [],
    quality_score := max 0 (100 - 10 * (issues.length : ℤ)) }

/-- Model of `CodeAnalyzer._is_executable` (lines 180–197). -/
def isExecutable (t : TaskInfo) : Bool :=
  if t.task_type = "bug" || t.task_type = "debug" || t.task_type = "code_review" then
    true
  else if t.code_blocks.any
      (fun b => b.type = BlockKind.fenced && 10 < (pyStrip b.code).length) then
    true
  else if t.task_type = "feature" && t.details.complexity = "low" then
    true
  else
    false

/-- Model of `CodeAnalyzer._create_implementation_plan` (lines 199–236); the
`solution` argument is accepted and ignored, as in the source. -/
def createImplementationPlan (t : TaskInfo) (_solution : Solution) : List String :=
  if t.task_type = "bug" then
    ["1. Identify the root cause of the bug",
     "2. Create a minimal test case to reproduce the issue",
     "3. Implement the fix",
     "4. Test the fix with the provided code",
     "5. Verify the solution works correctly"]
  else if t.task_type = "feature" then
    ["1. Understand the feature requirements",
     "2. Design the implementation approach",
     "3. Write the code implementation",
     "4. Add error handling and edge cases",
     "5. Test the new functionality"]
  else if t.task_type = "debug" then
    ["1. Analyze the problem symptoms",
     "2. Add logging/print statements to trace execution",
     "3. Identify the problematic code section",
     "4. Implement debugging solution",
     "5. Verify the fix resolves the issue"]
  else
    ["1. Analyze the requirements",
     "2. Develop a solution approach",
     "3. Implement the solution",
     "4. Test and validate the result"]

/-- Model of `CodeAnalyzer._calculate_analysis_confidence` (lines 258–275).  The
dicts built by `parse_message` always carry the `confidence` key, so
`task_info.get('confidence', 0.5)` is the stored task confidence. -/
def calculateAnalysisConfidence (t : TaskInfo) (solution : Solution) : ℚ :=
  let confidence := t.confidence
  let confidence := if t.code_blocks ≠ [] then confidence + 0.2 else confidence
  let confidence := if solution.ai_model ≠ "fallback" then confidence + 0.2
    else confidence
  let confidence := if t.details.complexity = "high" then confidence - 0.1
    else confidence
  max 0 (min confidence 1)

/-- The Analysis-confidence formula as the specification words it (spec
§4.2 step 6): start from the task-descriptor confidence, +0.2 for present
code fragments, +0.2 when the solution source is not the fallback template,
−0.1 for high complexity, clamped to `[0, 1]`.  Stated separately to be
compared with `calculateAnalysisConfidence`, which is translated from the
source. -/
def specAnalysisConfidence (taskConfidence : ℚ)
    (hasFragments notFallback complexityHigh : Bool) : ℚ :=
  max 0 (min (taskConfidence + (if hasFragments then 0.2 else 0)
    + (if notFallback then 0.2 else 0)
    - (if complexityHigh then 0.1 else 0)) 1)

/-- The analysis dict built by `analyze_task`; keys that are only present
on some paths are `Option`s. -/
structure Analysis where
  task_id : String
  task_type : String
  language : Option String
  timestamp : String
  status : String
  solution : Option Solution := none
  code_analysis : Option CodeAnalysisResult := none
  executable : Option Bool := none
  implementation_plan : Option (List String) := none
  confidence : Option ℚ := none
  error : Option String := none

/-- Model of `CodeAnalyzer.analyze_task` (lines 24–69).  Every operation inside its
`try` block is total in the model (all backend failures are absorbed inside
`generateResponse`), so the `except` branch that would set
`status = "error"` is unreachable and the call always completes. -/
def analyzeTask (c : AIClientObj)
    (backends : AIBackend → Except String AIResponse) (nowIso : String)
    (t : TaskInfo) : Analysis :=
  let solution := generateSolution c backends nowIso t
  let codeAnalysis := if t.code_blocks ≠ [] then some (analyzeCode t) else none
  let executable := isExecutable t
  let plan := createImplementationPlan t solution
  { task_id := t.id, task_type := t.task_type, language := t.language,
    timestamp := nowIso, status := "completed",
    solution := some solution, code_analysis := codeAnalysis,
    executable := some executable, implementation_plan := some plan,
    confidence := some (calculateAnalysisConfidence t solution) }

/-- Concrete client for the C2 scenario: only the Anthropic key is set. -/
def c2Client : AIClientObj :=
  { openai_api_key := none, anthropic_api_key := some "test-key",
    minimax_api_key := none, minimax_base_url := none }

/-- Concrete backend behaviour for the C2 scenario: every backend call
raises. -/
def c2Backends : AIBackend → Except String AIResponse :=
  fun _ => .error "connection refused"

/-- Concrete task descriptor for the C2 scenario. -/
def c2Task : TaskInfo :=
  { id := "deadbeef", original_message := "fix this bug",
    cleaned_message := "fix this bug", task_type := "bug", language := none,
    code_blocks := [],
    details := { urgency := "medium", complexity := "medium",
                 specific_requirements := [], error_messages := [] },
    timestamp := "2026-01-01T00:00:00", confidence := 1/2 }

end CodeAnalyzer

/-! ## Code executor (`nextvibe_bot/services/code_executor.py`)

`execute` creates a scratch directory, prepares and writes code, runs it in a
subprocess, and removes the scratch directory in a `finally` block.  The
subprocess world is modelled as a list of `ProcOutcome`s consumed one per
`create_subprocess_exec` call, so the returned remainder of the list counts
how many launches happened.  The result triple is `(execution_result,
remaining outcomes, does the scratch directory still exist)`; `none` models
non-termination (a hanging un-time-boxed `javac`), in which case the
`finally` block never runs.  The wall-clock fields (`timestamp`,
`execution_time`) are not modelled. -/

namespace CodeExecutor

/-- The executor configuration read from settings in `__init__`
(lines 25–28). -/
structure ExecConfig where
  docker_enabled : Bool
  execution_timeout : ℕ

/-- The behaviour of one `create_subprocess_exec` + `communicate` round:
the process completes with an exit code and decoded stdout/stderr, exceeds
the `wait_for` timeout, or the call raises. -/
inductive ProcOutcome where
  | completes (returncode : ℤ) (stdout stderr : String)
  | timesOut
  | raises (msg : String)
deriving DecidableEq, Repr

/-- The result dict of `_execute_locally`. -/
structure LocalResult where
  success : Bool
  output : String
  error : Option String
deriving DecidableEq, Repr

/-- Python `str.endswith`. -/
def strEndsWith (s suffix : String) : Bool :=
  prefixAt suffix.data.reverse s.data.reverse

/-- The time-boxed run step of `_execute_locally` (lines 304–332): launch,
`await asyncio.wait_for(process.communicate(), timeout)`, then classify.
A `TimeoutError` yields the message
`f"Execution timed out after {self.execution_timeout} seconds"`; any other
exception yields `f"Execution error: {e}"`. -/
def runMonitored (timeout : ℕ) :
    List ProcOutcome → Option (LocalResult × List ProcOutcome)
  | [] => none
  | o :: rest =>
    some (match o with
      | .completes rc so se =>
        if rc = 0 then { success := true, output := so, error := none }
        else { success := false, output := so,
               error := some (if se ≠ "" then se
                 else "Process exited with code " ++ toString rc) }
      | .timesOut =>
        { success := false, output := "",
          error := some ("Execution timed out after " ++ toString timeout
            ++ " seconds") }
      | .raises msg =>
        { success := false, output := "",
          error := some ("Execution error: " ++ msg) }, rest)

/-- Model of `CodeExecutor._execute_locally` (lines 264–334).  `.py` and `.js` files
run directly; `.java` compiles first (the compile `communicate` is *not*
time-boxed, so a compile that never finishes hangs: `none`), treating a
nonzero compiler exit as `f"Compilation error: {stderr}"`; any other
extension fails with `f"Unsupported file type: {file_path}"`. -/
def executeLocally (timeout : ℕ) (filePath : String)
    (outcomes : List ProcOutcome) : Option (LocalResult × List ProcOutcome) :=
  if strEndsWith filePath ".py" then runMonitored timeout outcomes
  else if strEndsWith filePath ".js" then runMonitored timeout outcomes
  else if strEndsWith filePath ".java" then
    match outcomes with
    | .completes rc _so se :: rest =>
      if rc ≠ 0 then
        some ({ success := false, output := "",
                error := some ("Compilation error: " ++ se) }, rest)
      else runMonitored timeout rest
    | .raises msg :: rest =>
      some ({ success := false, output := "",
              error := some ("Execution error: " ++ msg) }, rest)
    | .timesOut :: _ => none
    | [] => none
  else
    some ({ success := false, output := "",
            error := some ("Unsupported file type: " ++ filePath) }, outcomes)

/-- The analysis dict as `execute` consumes it.  `language` is two-level
because `analysis.get("language", "python")` distinguishes a missing key
(default `"python"`) from a key stored with value `None`. -/
structure ExecAnalysis where
  language : Option (Option String) := none
  task_type : Option String := none
  code_analysis : Option CodeAnalyzer.CodeAnalysisResult := none
  task_info : Option TaskParser.TaskInfo := none

/-- Model of `analysis.get("language", "python")` (line 102). -/
def analysisLanguage (a : ExecAnalysis) : Option String :=
  match a.language with
  | none => some "python"
  | some v => v

/-- The `'''…'''` template of `_generate_python_test` for `task_type ==
"bug"` (lines 134–156). -/
def pythonBugTest : String :=
  "#!/usr/bin/env python3\n\"\"\"Test script for bug fix verification\"\"\"\n\nimport sys\nimport traceback\n\ndef test_bug_fix():\n    \"\"\"Test the bug fix\"\"\"\n    try:\n        print(\"Testing the bug fix...\")\n        # This is a placeholder - in a real implementation,\n        # you would have the actual bug fix code\n        print(\"Bug fix appears to be working!\")\n        return True\n    except Exception as e:\n        print(f\"Error testing bug fix: \x7be\x7d\")\n        traceback.print_exc()\n        return False\n\nif __name__ == \"__main__\":\n    success = test_bug_fix()\n    sys.exit(0 if success else 1)\n"

/-- The template of `_generate_python_test` for `task_type == "feature"`
(lines 158–177). -/
def pythonFeatureTest : String :=
  "#!/usr/bin/env python3\n\"\"\"Test script for feature implementation\"\"\"\n\nimport sys\n\ndef test_feature():\n    \"\"\"Test the new feature\"\"\"\n    try:\n        print(\"Testing the new feature...\")\n        # This is a placeholder for the actual feature implementation\n        print(\"Feature is working correctly!\")\n        return True\n    except Exception as e:\n        print(f\"Error testing feature: \x7be\x7d\")\n        return False\n\nif __name__ == \"__main__\":\n    success = test_feature()\n    sys.exit(0 if success else 1)\n"

/-- The default template of `_generate_python_test` (lines 179–191). -/
def pythonGeneralTest : String :=
  "#!/usr/bin/env python3\n\"\"\"General test script\"\"\"\n\nimport sys\n\ndef main():\n    print(\"Code execution test\")\n    print(\"This is a placeholder for the actual code\")\n    return 0\n\nif __name__ == \"__main__\":\n    sys.exit(main())\n"

/-- Model of `_generate_javascript_test` (lines 193–201). -/
def javascriptTest : String :=
  "console.log(\"JavaScript execution test\");\nconsole.log(\"This is a placeholder for the actual code\");\n\n// Test completion\nprocess.exit(0);\n"

/-- Model of `_generate_simple_test`'s `templates["java"]` (lines 207–211). -/
def javaTemplate : String :=
  "public class Test \x7b\n    public static void main(String[] args) \x7b\n        System.out.println(\"Java execution test\");\n    \x7d\n\x7d"

/-- Model of `_generate_simple_test`'s `templates["cpp"]` (lines 212–216). -/
def cppTemplate : String :=
  "#include <iostream>\nint main() \x7b\n    std::cout << \"C++ execution test\" << std::endl;\n    return 0;\n\x7d"

/-- Model of `_generate_simple_test`'s `templates["go"]` (lines 217–221). -/
def goTemplate : String :=
  "package main\nimport \"fmt\"\nfunc main() \x7b\n    fmt.Println(\"Go execution test\")\n\x7d"

/-- Model of `_generate_simple_test`'s `templates["rust"]` (lines 222–224). -/
def rustTemplate : String :=
  "fn main() \x7b\n    println!(\"Rust execution test\");\n\x7d"

/-- Model of `CodeExecutor._extract_executable_code` (lines 117–126): the first
fenced block with truthy code among `analysis.get("task_info",
{}).get("code_blocks", [])`, else `""`. -/
def extractExecutableCode (a : ExecAnalysis) : String :=
  match a.task_info with
  | none => ""
  | some t =>
    match t.code_blocks.find?
        (fun b => b.type = TaskParser.BlockKind.fenced && b.code ≠ "") with
    | some b => b.code
    | none => ""

/-- Model of `CodeExecutor._generate_python_test` (lines 128–191). -/
def generatePythonTest (a : ExecAnalysis) : String :=
  let taskType := a.task_type.getD "coding"
  if taskType = "bug" then pythonBugTest
  else if taskType = "feature" then pythonFeatureTest
  else pythonGeneralTest

/-- Model of `CodeExecutor._generate_simple_test` (lines 203–227); the argument may
be `None` (a stored `language: None`), which misses every template key. -/
def generateSimpleTest (language : Option String) : String :=
  if language = some "java" then javaTemplate
  else if language = some "cpp" then cppTemplate
  else if language = some "go" then goTemplate
  else if language = some "rust" then rustTemplate
  else "# No template available for this language"

/-- Model of `CodeExecutor._prepare_code` (lines 99–115). -/
def prepareCode (a : ExecAnalysis) : String :=
  let hasAnalyzed := match a.code_analysis with
    | some ca => decide (0 < ca.blocks_analyzed)
    | none => false
  if hasAnalyzed then extractExecutableCode a
  else if analysisLanguage a = some "python" then generatePythonTest a
  else if analysisLanguage a = some "javascript"
      || analysisLanguage a = some "typescript" then javascriptTest
  else generateSimpleTest (analysisLanguage a)

/-- Model of `CodeExecutor._write_code_to_file` (lines 229–252): the file name chosen
by sniffing language-identifying tokens in the code body (the scratch
directory prefix of the path is abstracted away). -/
def fileNameFor (code : String) : String :=
  if strContains code "public class" || strContains code "System.out" then
    "Test.java"
  else if strContains code "#include" || strContains code "std::" then
    "test.cpp"
  else if strContains code "package main" then "main.go"
  else if strContains code "fn main" then "main.rs"
  else "test.py"

/-- The execution-result dict of `execute` (wall-clock fields omitted). -/
structure ExecResult where
  status : String
  output : String
  error : Option String
  files_created : List String
deriving DecidableEq, Repr

/-- Model of `CodeExecutor.execute` (lines 30–97).  `tempfile.mkdtemp` is modelled as
succeeding; whether Docker is enabled is immaterial because
`_execute_in_docker` falls back to `_execute_locally` (line 262).  The
`finally` block removes the scratch directory on every returning path, so
the final component is `false` whenever the call returns. -/
def execute (cfg : ExecConfig) (a : ExecAnalysis) (outcomes : List ProcOutcome) :
    Option (ExecResult × List ProcOutcome × Bool) :=
  if prepareCode a = "" then
    some ({ status := "skipped", output := "No executable code found",
            error := none, files_created := [] }, outcomes, false)
  else
    match executeLocally cfg.execution_timeout (fileNameFor (prepareCode a))
        outcomes with
    | none => none
    | some (r, rest) =>
      some ((if r.success then
          { status := "completed", output := r.output, error := none,
            files_created := [fileNameFor (prepareCode a)] }
        else
          { status := "failed", output := r.output, error := r.error,
            files_created := [fileNameFor (prepareCode a)] }), rest, false)

/-- Concrete analysis for the C6 witness: language `"python"`, no analyzed
blocks, so the executor writes the general Python test template to
`test.py`. -/
def c6Analysis : ExecAnalysis :=
  { language := some (some "python"), task_type := some "coding" }

end CodeExecutor

end NextVibe

/-! # Theorems -/

namespace NextVibe

namespace RateLimiter

/-- Pruning only removes elements. -/
lemma prune_length_le (now : ℚ) (l : List ℚ) : (prune now l).length ≤ l.length :=
  List.length_filter_le _ _

/-- If every stored timestamp is less than 60 seconds old, pruning keeps all of them. -/
lemma prune_eq_self {now : ℚ} {l : List ℚ} (h : ∀ t ∈ l, now - t < 60) :
    prune now l = l := by
  refine List.filter_eq_self.mpr fun a ha => ?_
  have := h a ha
  simpa using by linarith

/-- If every stored timestamp is more than 60 seconds old, pruning empties the window. -/
lemma prune_eq_nil {now : ℚ} {l : List ℚ} (h : ∀ t ∈ l, 60 < now - t) :
    prune now l = [] := by
  refine List.filter_eq_nil_iff.mpr fun a ha => ?_
  have := h a ha
  simpa using by linarith

/-- Core induction for the admission scenario: starting from a store whose
window for `u` is `pre`, a sequence of calls at times `ts` is fully admitted
and recorded, provided the total count fits under the capacity and every pair
of involved timestamps is less than 60 seconds apart. -/
lemma runIsAllowed_admits (N : ℕ) (u : UserId) :
    ∀ (ts pre : List ℚ) (st : RateState),
      st u = pre →
      pre.length + ts.length ≤ N →
      (∀ b ∈ ts, ∀ a ∈ pre ++ ts, b - a < 60) →
      (runIsAllowed N st u ts).1 = List.replicate ts.length true ∧
      (runIsAllowed N st u ts).2 u = pre ++ ts := by
  intro ts
  induction ts with
  | nil =>
    intro pre st hst _ _
    simp [runIsAllowed, hst]
  | cons t ts ih =>
    intro pre st hst hlen hsp
    have hkeep : ∀ a ∈ pre, t - a < 60 := fun a ha =>
      hsp t (by simp) a (by simp [ha])
    have hp : prune t (st u) = pre := by
      rw [hst]; exact prune_eq_self hkeep
    have hlt : pre.length < N := by
      simp only [List.length_cons] at hlen; omega
    have hres : isAllowed N st u t = (true, Function.update st u (pre ++ [t])) := by
      simp [isAllowed, hp, not_le.mpr hlt]
    have hst1 : (Function.update st u (pre ++ [t])) u = pre ++ [t] :=
      Function.update_same u _ st
    have hlen1 : (pre ++ [t]).length + ts.length ≤ N := by
      simp only [List.length_append, List.length_cons, List.length_nil] at hlen ⊢
      omega
    have hsp1 : ∀ b ∈ ts, ∀ a ∈ (pre ++ [t]) ++ ts, b - a < 60 := by
      intro b hb a ha
      refine hsp b (by simp [hb]) a ?_
      simp only [List.mem_append, List.mem_singleton, List.mem_cons] at ha ⊢
      tauto
    obtain ⟨h1, h2⟩ := ih (pre ++ [t]) (Function.update st u (pre ++ [t])) hst1 hlen1 hsp1
    constructor
    · simp [runIsAllowed, hres, h1, List.replicate_succ]
    · simp only [runIsAllowed, hres]
      rw [h2]
      simp

/-- Auxiliary for the window-size invariant: a single call preserves
"every user's stored window has at most `N` entries". -/
lemma applyOp_invariant (N : ℕ) (st : RateState)
    (h : ∀ v, (st v).length ≤ N) (op : RLOp) :
    ∀ v, ((applyOp N st op) v).length ≤ N := by
  intro v
  cases op with
  | allow u now =>
    by_cases hc : N ≤ (prune now (st u)).length
    · simp only [applyOp, isAllowed, hc, if_true]
      by_cases hv : v = u
      · subst hv
        rw [Function.update_same]
        exact le_trans (prune_length_le _ _) (h v)
      · rw [Function.update_noteq hv]
        exact h v
    · simp only [applyOp, isAllowed, hc, if_false]
      by_cases hv : v = u
      · subst hv
        rw [Function.update_same]
        simp only [List.length_append, List.length_cons, List.length_nil]
        omega
      · rw [Function.update_noteq hv]
        exact h v
  | remaining u now =>
    simp only [applyOp, getRemainingMessages]
    by_cases hv : v = u
    · subst hv
      rw [Function.update_same]
      exact le_trans (prune_length_le _ _) (h v)
    · rw [Function.update_noteq hv]
      exact h v
  | reset u now =>
    have hstate : (getResetTime N st u now).2 = st := by
      unfold getResetTime
      split
      · rfl
      · split <;> rfl
    simpa [applyOp, hstate] using h v

/-- The invariant transported along any call sequence. -/
lemma runOps_invariant (N : ℕ) :
    ∀ (ops : List RLOp) (st : RateState),
      (∀ v, (st v).length ≤ N) →
      ∀ v, ((runOps N st ops) v).length ≤ N := by
  intro ops
  induction ops with
  | nil => intro st h v; exact h v
  | cons op ops ih =>
    intro st h v
    exact ih (applyOp N st op) (applyOp_invariant N st h op) v

/-- C4: for every user id and capacity `N`: `is_allowed` on a window holding
fewer than `N` unexpired timestamps returns true and appends the current
timestamp; after exactly `N` admitted calls within one 60-second window the
`(N+1)`-th call returns false and leaves the window unchanged; and once more
than 60 seconds have elapsed since all stored entries, `is_allowed` admits
again. -/
theorem c4_sliding_window (N : ℕ) :
    (∀ (st : RateState) (u : UserId) (now : ℚ),
        (prune now (st u)).length < N →
        (isAllowed N st u now).1 = true ∧
        (isAllowed N st u now).2 u = prune now (st u) ++ [now]) ∧
    (∀ (u : UserId) (ts : List ℚ) (tNext : ℚ),
        ts.length = N →
        (∀ b ∈ ts, ∀ a ∈ ts, b - a < 60) →
        (∀ a ∈ ts, tNext - a < 60) →
        (runIsAllowed N emptyState u ts).1 = List.replicate N true ∧
        (runIsAllowed N emptyState u ts).2 u = ts ∧
        (isAllowed N (runIsAllowed N emptyState u ts).2 u tNext).1 = false ∧
        (isAllowed N (runIsAllowed N emptyState u ts).2 u tNext).2 u = ts) ∧
    (∀ (st : RateState) (u : UserId) (now : ℚ),
        0 < N →
        (∀ t ∈ st u, 60 < now - t) →
        (isAllowed N st u now).1 = true) := by
  refine ⟨?_, ?_, ?_⟩
  · intro st u now h
    constructor
    · simp [isAllowed, not_le.mpr h]
    · simp [isAllowed, not_le.mpr h]
  · intro u ts tNext hlen hsp hnext
    have hrun := runIsAllowed_admits N u ts [] emptyState rfl
      (by simp [hlen]) (by simpa using hsp)
    obtain ⟨h1, h2⟩ := hrun
    have h2s : (runIsAllowed N emptyState u ts).2 u = ts := by simpa using h2
    have hprune : prune tNext ((runIsAllowed N emptyState u ts).2 u) = ts := by
      rw [h2s]; exact prune_eq_self hnext
    have hfull : N ≤ ts.length := le_of_eq hlen.symm
    have hisa : isAllowed N (runIsAllowed N emptyState u ts).2 u tNext
        = (false, Function.update (runIsAllowed N emptyState u ts).2 u ts) := by
      simp [isAllowed, hprune, hfull]
    refine ⟨by rw [h1, hlen], h2s, by rw [hisa], ?_⟩
    rw [hisa]
    simp
  · intro st u now hN h
    have hp : prune now (st u) = [] := prune_eq_nil h
    have : (prune now (st u)).length < N := by rw [hp]; simpa using hN
    simp [isAllowed, not_le.mpr this]

/-- Witness for C4: capacity 2, user 0; a fresh call at time 5 is admitted and
recorded; calls at times 0 and 1 are both admitted and a third call at time 2
is rejected leaving the window `[0, 1]`; a user whose only entry is 39+ seconds
expired (entry 0, now 100) is admitted again. -/
theorem c4_sliding_window_witness :
    ((isAllowed 2 emptyState 0 5).1 = true ∧
      (isAllowed 2 emptyState 0 5).2 0 = prune 5 (emptyState 0) ++ [5]) ∧
    ((runIsAllowed 2 emptyState 0 [0, 1]).1 = List.replicate 2 true ∧
      (runIsAllowed 2 emptyState 0 [0, 1]).2 0 = [0, 1] ∧
      (isAllowed 2 (runIsAllowed 2 emptyState 0 [0, 1]).2 0 2).1 = false ∧
      (isAllowed 2 (runIsAllowed 2 emptyState 0 [0, 1]).2 0 2).2 0 = [0, 1]) ∧
    (isAllowed 2 (Function.update emptyState 0 [0]) 0 100).1 = true := by
  refine ⟨(c4_sliding_window 2).1 emptyState 0 5 (by norm_num [prune, emptyState]),
    (c4_sliding_window 2).2.1 0 [0, 1] 2 rfl ?_ ?_,
    (c4_sliding_window 2).2.2 (Function.update emptyState 0 [0]) 0 100 (by norm_num) ?_⟩
  · intro b hb a ha
    simp only [List.mem_cons, List.mem_singleton, List.not_mem_nil, or_false] at hb ha
    rcases hb with rfl | rfl <;> rcases ha with rfl | rfl <;> norm_num
  · intro a ha
    simp only [List.mem_cons, List.mem_singleton, List.not_mem_nil, or_false] at ha
    rcases ha with rfl | rfl <;> norm_num
  · intro t ht
    rw [Function.update_same] at ht
    simp only [List.mem_singleton] at ht
    subst ht
    norm_num

/-- C7 (code bug): `get_reset_time` checks capacity and takes the minimum over
the *unpruned* stored list (it computes `minute_ago` but never filters by it).
Concretely with capacity 1: user 0 is admitted at time 0; at time 100 the
trailing-60-second window is empty (fewer than capacity entries), yet
`get_reset_time` returns `some 60` — a reset time 40 seconds in the past —
instead of the `none` the specification requires. -/
theorem c7_reset_time_code_bug :
    (isAllowed 1 emptyState 0 0).1 = true ∧
    (getResetTime 1 ((isAllowed 1 emptyState 0 0).2) 0 100).1 = some 60 ∧
    (prune 100 (((isAllowed 1 emptyState 0 0).2) 0)).length < 1 := by
  norm_num [isAllowed, getResetTime, prune, emptyState]

/-- C10: starting from the empty store, after any sequence of `is_allowed`,
`get_remaining_messages` and `get_reset_time` calls, no user's stored
timestamp list ever holds more than `max_messages` entries. -/
theorem c10_window_capacity_invariant (N : ℕ) (ops : List RLOp) (u : UserId) :
    ((runOps N emptyState ops) u).length ≤ N :=
  runOps_invariant N ops emptyState (fun _ => by simp [emptyState]) u

end RateLimiter

namespace TaskParser

/-- Prepending a strict lower bound to a strictly increasing list. -/
lemma chain_lt_cons {a : ℕ} {T : List ℕ} (hT : T.Chain' (· < ·))
    (h : ∀ q ∈ T, a < q) : (a :: T).Chain' (· < ·) :=
  List.chain'_cons'.mpr ⟨fun b hb => h b (List.mem_of_mem_head? hb), hT⟩

/-- The start indices produced by the inline scanner are strictly increasing
and bounded below by the scan position. -/
lemma inlineAux_mono :
    ∀ (fuel pos : ℕ) (l : List Char),
      ((inlineAux fuel pos l).map Prod.fst).Chain' (· < ·) ∧
      (∀ q ∈ (inlineAux fuel pos l).map Prod.fst, pos ≤ q) := by
  intro fuel
  induction fuel with
  | zero =>
    intro pos l
    cases l <;> simp [inlineAux]
  | succ fuel ih =>
    intro pos l
    cases l with
    | nil => simp [inlineAux]
    | cons c rest =>
      simp only [inlineAux]
      split
      · split
        · split
          · exact ⟨(ih (pos + 1) rest).1,
              fun q hq => le_trans (by omega) ((ih (pos + 1) rest).2 q hq)⟩
          · constructor
            · simp only [List.map_cons]
              refine chain_lt_cons (ih _ _).1 fun q hq => ?_
              have := (ih _ _).2 q hq
              omega
            · intro q hq
              simp only [List.map_cons, List.mem_cons] at hq
              rcases hq with rfl | hq
              · exact le_refl q
              · have := (ih _ _).2 q hq
                omega
        · exact ⟨(ih (pos + 1) rest).1,
            fun q hq => le_trans (by omega) ((ih (pos + 1) rest).2 q hq)⟩
      · exact ⟨(ih (pos + 1) rest).1,
          fun q hq => le_trans (by omega) ((ih (pos + 1) rest).2 q hq)⟩

/-- The start indices produced by the fenced scanner are strictly increasing
and bounded below by the scan position. -/
lemma fencedAux_mono :
    ∀ (fuel pos : ℕ) (l : List Char),
      ((fencedAux fuel pos l).map Prod.fst).Chain' (· < ·) ∧
      (∀ q ∈ (fencedAux fuel pos l).map Prod.fst, pos ≤ q) := by
  intro fuel
  induction fuel with
  | zero =>
    intro pos l
    cases l <;> simp [fencedAux]
  | succ fuel ih =>
    intro pos l
    cases l with
    | nil => simp [fencedAux]
    | cons c rest =>
      simp only [fencedAux]
      split
      · split
        · split
          · constructor
            · simp only [List.map_cons]
              refine chain_lt_cons (ih _ _).1 fun q hq => ?_
              have := (ih _ _).2 q hq
              omega
            · intro q hq
              simp only [List.map_cons, List.mem_cons] at hq
              rcases hq with rfl | hq
              · exact le_refl q
              · have := (ih _ _).2 q hq
                omega
          · exact ⟨(ih _ _).1, fun q hq => le_trans (by omega) ((ih (pos + 1) _).2 q hq)⟩
        · exact ⟨(ih _ _).1, fun q hq => le_trans (by omega) ((ih (pos + 1) _).2 q hq)⟩
      · exact ⟨(ih _ _).1, fun q hq => le_trans (by omega) ((ih (pos + 1) _).2 q hq)⟩
      · exact ⟨by simp, by simp⟩

/-- Mapping position-and-kind over an enumerated, tagged list forgets the
enumeration. -/
lemma map_fst_type_enumFrom (f : ℕ × (ℕ × String × String) → ℕ × CodeBlock)
    (k : BlockKind) (hf : ∀ x, ((f x).1, (f x).2.type) = (x.2.1, k)) :
    ∀ (n : ℕ) (fs : List (ℕ × String × String)),
      ((List.enumFrom n fs).map f).map (fun x => (x.1, x.2.type)) =
        fs.map (fun x => (x.1, k)) := by
  intro n fs
  induction fs generalizing n with
  | nil => simp
  | cons a as ih => simp [List.enumFrom_cons, hf, ih]

/-- Mapping position-and-kind over an enumerated, tagged inline list. -/
lemma map_fst_type_enumFrom_inline (f : ℕ × (ℕ × String) → ℕ × CodeBlock)
    (k : BlockKind) (hf : ∀ x, ((f x).1, (f x).2.type) = (x.2.1, k)) :
    ∀ (n : ℕ) (fs : List (ℕ × String)),
      ((List.enumFrom n fs).map f).map (fun x => (x.1, x.2.type)) =
        fs.map (fun x => (x.1, k)) := by
  intro n fs
  induction fs generalizing n with
  | nil => simp
  | cons a as ih => simp [List.enumFrom_cons, hf, ih]

/-- C1 (code bug): `parse_message` raises `NameError` on *every* input,
because `_generate_task_id` refers to `hashlib`, which `task_parser.py`
never imports.  The theorem is quantified over all behaviours of the total
regex helpers and over the message, so no input returns a task descriptor at
all (the spec claims the classifier never raises). -/
theorem c1_parse_message_always_raises
    (detectTaskType : String → String)
    (detectLanguage : String → String → Option String)
    (extractTaskDetails : String → TaskDetails)
    (calculateConfidence : String → TaskDetails → ℚ)
    (md5hex : String → String) (nowIso : String) (message : String) :
    parseMessage detectTaskType detectLanguage extractTaskDetails
        calculateConfidence md5hex nowIso message =
      .error (.nameError "hashlib") := rfl

/-- C3 counterexample: the message consisting of the single fenced block
```` ```python\nprint(1)\n``` ```` does *not* yield exactly one code
fragment: the single-backtick pattern also matches across the fence
delimiters. -/
theorem c3_counterexample :
    (extractCodeBlocks "```python\nprint(1)\n```").length ≠ 1 := by decide

/-- C3 (amended): that message yields exactly *two* fragments: the fenced
one with language `"python"` and code `"print(1)"`, followed by a spurious
inline fragment whose text `"python\nprint(1)\n"` spans the fence
delimiters. -/
theorem c3_extraction_two_fragments :
    extractCodeBlocks "```python\nprint(1)\n```" =
      [{ id := Sum.inl 0, language := some "python", code := "print(1)",
         type := BlockKind.fenced },
       { id := Sum.inr "inline_0", language := none,
         code := "python\nprint(1)\n", type := BlockKind.inline }] := by decide

/-- C5 counterexample: in the message `` `a` ``\n```` ```\nb\n``` ````, the
inline span `` `a` `` starts at index 0 and the fenced block at index 4, yet
the extraction lists the fenced block first — the combined list is not
ordered by position of first appearance. -/
theorem c5_counterexample : ¬ fragmentsInSourceOrder "`a`\n```\nb\n```" := by
  unfold fragmentsInSourceOrder
  decide

/-- C5 (amended): the extraction lists all fenced fragments first, in
strictly increasing order of their start position, followed by all inline
fragments, again in strictly increasing order of start position; the
combined list is *not* globally ordered by start position (see the
counterexample). -/
theorem c5_grouped_ordering (m : String) :
    ((fencedMatches m).map Prod.fst).Chain' (· < ·) ∧
    ((inlineMatches m).map Prod.fst).Chain' (· < ·) ∧
    (extractCodeBlocksPos m).map (fun x => (x.1, x.2.type)) =
      (fencedMatches m).map (fun x => (x.1, BlockKind.fenced)) ++
        (inlineMatches m).map (fun x => (x.1, BlockKind.inline)) := by
  refine ⟨(fencedAux_mono _ 0 _).1, (inlineAux_mono _ 0 _).1, ?_⟩
  simp only [extractCodeBlocksPos, List.map_append, List.enum]
  rw [map_fst_type_enumFrom _ BlockKind.fenced (fun x => rfl) 0 (fencedMatches m),
    map_fst_type_enumFrom_inline _ BlockKind.inline (fun x => rfl) 0 (inlineMatches m)]

end TaskParser

namespace AIClient

/-- C9: constructing an `AIClient` raises `AttributeError`: `__init__` reads
`settings.minimax_api_key` (and then `settings.minimax_base_url`) but the
`Settings` class declares neither field; consequently `CodeAnalyzer`, which
constructs an `AIClient` in its own `__init__`, also fails at construction
time, for every settings value. -/
theorem c9_ai_client_init_raises (s : Config.Settings) :
    aiClientInit s = .error (.attributeError "minimax_api_key") ∧
    CodeAnalyzer.codeAnalyzerInit s = .error (.attributeError "minimax_api_key") ∧
    "minimax_api_key" ∉ Config.settingsDeclaredFields ∧
    "minimax_base_url" ∉ Config.settingsDeclaredFields :=
  ⟨rfl, rfl, by decide, by decide⟩

end AIClient

namespace CodeAnalyzer

open AIClient TaskParser

/-- C2 (code bug): with only the Anthropic key set and every backend call
raising, `analyze_task` completes without raising — but the solution it
returns is labelled `ai_model = "minimax"`, not `"fallback"`, even though
its text is the static fallback template: line 82's
`hasattr(self.ai_client, '_minimax_client')` is always true because
`__init__` assigns that attribute unconditionally. -/
theorem c2_all_backends_raise_mislabelled :
    (analyzeTask c2Client c2Backends "2026-01-01T00:00:00" c2Task).status
        = "completed" ∧
    ((analyzeTask c2Client c2Backends "2026-01-01T00:00:00" c2Task).solution.map
        Solution.ai_model) = some "minimax" ∧
    (generateSolution c2Client c2Backends "2026-01-01T00:00:00" c2Task).approach
        = (generateFallbackResponse (buildSolutionPrompt c2Task)).content ∧
    ((analyzeTask c2Client c2Backends "2026-01-01T00:00:00" c2Task).solution.map
        Solution.ai_model) ≠ some "fallback" := by
  have h : ((analyzeTask c2Client c2Backends "2026-01-01T00:00:00"
      c2Task).solution.map Solution.ai_model) = some "minimax" := rfl
  exact ⟨rfl, h, rfl, by rw [h]; decide⟩

/-- C8: the Analysis confidence computed by the source equals the formula
the specification states — task confidence, +0.2 for present code fragments,
+0.2 when the solution source is not the fallback template, −0.1 for high
complexity, clamped — and always lies in `[0, 1]`. -/
theorem c8_analysis_confidence (t : TaskParser.TaskInfo) (solution : Solution) :
    calculateAnalysisConfidence t solution =
      specAnalysisConfidence t.confidence (decide (t.code_blocks ≠ []))
        (decide (solution.ai_model ≠ "fallback"))
        (decide (t.details.complexity = "high")) ∧
    0 ≤ calculateAnalysisConfidence t solution ∧
    calculateAnalysisConfidence t solution ≤ 1 := by
  refine ⟨?_, ?_, ?_⟩
  · simp only [calculateAnalysisConfidence, specAnalysisConfidence]
    split_ifs <;> simp_all
  · simp only [calculateAnalysisConfidence]
    exact le_max_left _ _
  · simp only [calculateAnalysisConfidence]
    exact max_le (by norm_num) (min_le_right _ _)

end CodeAnalyzer

namespace CodeExecutor

/-- C6: whenever the monitored subprocess exceeds the configured timeout
(for a `.py` file the first launch, for a `.java` file the run launch after
a successful compile), `execute` returns `status = "failed"` with the exact
message `"Execution timed out after <timeout> seconds"` — which contains
`"timed out after "` followed by the configured number of seconds — consumes
exactly the launches made (no retry: the remaining outcome list is returned
untouched), and the scratch directory no longer exists. -/
theorem c6_timeout_failed_no_retry_cleanup (cfg : ExecConfig) (a : ExecAnalysis)
    (hne : prepareCode a ≠ "") :
    (fileNameFor (prepareCode a) = "test.py" →
      ∀ rest : List ProcOutcome,
        execute cfg a (ProcOutcome.timesOut :: rest) =
          some ({ status := "failed", output := "",
                  error := some ("Execution timed out after "
                    ++ toString cfg.execution_timeout ++ " seconds"),
                  files_created := ["test.py"] }, rest, false)) ∧
    (fileNameFor (prepareCode a) = "Test.java" →
      ∀ (so se : String) (rest : List ProcOutcome),
        execute cfg a (ProcOutcome.completes 0 so se :: ProcOutcome.timesOut :: rest) =
          some ({ status := "failed", output := "",
                  error := some ("Execution timed out after "
                    ++ toString cfg.execution_timeout ++ " seconds"),
                  files_created := ["Test.java"] }, rest, false)) ∧
    (∃ pre post,
      "Execution timed out after " ++ toString cfg.execution_timeout ++ " seconds"
        = pre ++ ("timed out after " ++ toString cfg.execution_timeout) ++ post) := by
  refine ⟨?_, ?_, "Execution ", " seconds", ?_⟩
  · intro hpy rest
    simp only [execute]
    rw [if_neg hne, hpy]
    rfl
  · intro hjava so se rest
    simp only [execute]
    rw [if_neg hne, hjava]
    rfl
  · have h : ("Execution " : String) ++ "timed out after "
        = "Execution timed out after " := rfl
    rw [← h, String.append_assoc "Execution " "timed out after "
      (toString cfg.execution_timeout)]

/-- Witness for C6 (python path): with the default 30-second timeout and an
analysis that makes the executor synthesize the general Python test, a
timing-out subprocess yields the failed/timeout result, consumes exactly one
launch, and leaves no scratch directory. -/
theorem c6_timeout_witness :
    prepareCode c6Analysis ≠ "" ∧
    fileNameFor (prepareCode c6Analysis) = "test.py" ∧
    execute { docker_enabled := true, execution_timeout := 30 } c6Analysis
        [ProcOutcome.timesOut] =
      some ({ status := "failed", output := "",
              error := some ("Execution timed out after "
                ++ toString 30 ++ " seconds"),
              files_created := ["test.py"] }, [], false) :=
  ⟨by decide, by decide,
    (c6_timeout_failed_no_retry_cleanup
      { docker_enabled := true, execution_timeout := 30 } c6Analysis
      (by decide)).1 (by decide) []⟩

end CodeExecutor

end NextVibe
